import Mathlib

/-!
Verification development for the webosose/filecache service.

The repository's `src/` holds the request adapter (`CategoryHandler.cpp`) and the
bootstrap (`FileCacheServiceApp.cpp`).  The cache-engine core (`CFileCacheSet`,
the path codec in `CacheBase`, the sandbox oracle and the glib timer facility)
is not part of `src/`; those operations are modelled from the specification and
are marked `Modelled from the spec:` in their doc comments.  Handler functions
are shallow embeddings of the C++ in `CategoryHandler.cpp`, translated
branch-for-branch; reply message strings keep the source wording with the
single-quote decorations dropped.
-/

/-- Error taxonomy of the service, embedding the `FCErr` codes used by
`CategoryHandler.cpp` (`FCErrorNone`, `FCInvalidParams`, `FCExistsError`, ...). -/
inductive FCErr where
  | errorNone
  | invalidParams
  | existsError
  | defineError
  | changeError
  | deleteError
  | resizeError
  | inUseError
  | argumentError
  | permError
  | directoryError
  | configurationError
deriving DecidableEq, Repr

/-- A reply sent on a request handle: `msg->replySuccess()` or
`msg->replyError(code, text)`. -/
inductive Reply where
  | success
  | error (code : FCErr) (msg : String)
deriving DecidableEq, Repr

/-- The error code a reply carries (`FCErr.errorNone` for a success reply). -/
def Reply.errCode : Reply → FCErr
  | Reply.success => FCErr.errorNone
  | Reply.error c _ => c

/-- Embeds `CCacheParamValues`: the five numeric parameters of a cache type,
as read from a payload by the handlers (64-bit signed integers, absent
fields defaulting to 0). -/
structure CCacheParamValues where
  loWatermark : Int
  hiWatermark : Int
  size : Int
  cost : Int
  lifetime : Int
deriving DecidableEq, Repr

/-- Modelled from the spec: a `CachedObject` record (spec §3, Data Model):
owning type name, caller-supplied filename, resolved size, subscriber count,
write-open state and the pending-expire bit.  The timestamps, cost and
lifetime fields play no role in the claims settled here and are omitted. -/
structure CacheObject where
  typeName : String
  filename : String
  size : Int
  subscriberCount : Nat
  writeOpen : Bool
  pendingExpire : Bool
deriving DecidableEq, Repr

/-- Modelled from the spec (§4.3): `IsEvictable() = subscriberCount == 0 && !writeOpen`. -/
def CacheObject.IsEvictable (o : CacheObject) : Bool :=
  o.subscriberCount == 0 && !o.writeOpen

/-- Modelled from the spec: a registered cache type: its parameters and the
`dirType` flag. -/
structure FileCacheType where
  params : CCacheParamValues
  dirType : Bool
deriving DecidableEq, Repr

/-- Modelled from the spec (§4.5): `CFileCacheSet` owns the registry of types
and, through them, the object table; objects are indexed by their 64-bit id
(the reverse index `id → typeName` is the `typeName` field of each object). -/
structure CFileCacheSet where
  types : List (String × FileCacheType)
  objects : List (Nat × CacheObject)
deriving DecidableEq, Repr

/-- Point update of an association list: replaces the value bound to `k`
(everywhere it occurs) by `f` of it, leaving other keys unchanged. -/
def updateAssoc {α β : Type} [DecidableEq α] (l : List (α × β)) (k : α) (f : β → β) :
    List (α × β) :=
  l.map fun q => if q.1 = k then (k, f q.2) else q

/-- Modelled from the spec (§4.1, Path Codec): value of one hexadecimal digit. -/
def hexDigitVal (c : Char) : Option Nat :=
  if '0' ≤ c ∧ c ≤ '9' then some (c.toNat - '0'.toNat)
  else if 'a' ≤ c ∧ c ≤ 'f' then some (c.toNat - 'a'.toNat + 10)
  else if 'A' ≤ c ∧ c ≤ 'F' then some (c.toNat - 'A'.toNat + 10)
  else none

/-- Modelled from the spec (§4.1, Path Codec): parse a hexadecimal digit
string, most significant digit first. -/
def parseHexDigits (cs : List Char) : Option Nat :=
  cs.foldl
    (fun acc c =>
      match acc, hexDigitVal c with
      | some n, some d => some (n * 16 + d)
      | _, _ => none)
    (some 0)

/-- Modelled from the spec (§4.1): `GetObjectIdFromPath` lives in `CacheBase`,
which is not under `src/`.  A path is modelled as its list of segments.  The
object id is formatted as a fixed-width (16-digit) hexadecimal string whose
first two digits form the shard directory and whose remaining 14 digits begin
the final segment; the decoder parses shard + tail and returns 0 on any
malformation, tolerating trailing content beyond the encoded tail. -/
def GetObjectIdFromPath (path : List String) : Nat :=
  match path.reverse with
  | tailSeg :: shard :: _ =>
    if shard.length = 2 ∧ 14 ≤ tailSeg.length then
      match parseHexDigits (shard.data ++ tailSeg.data.take 14) with
      | some n => n
      | none => 0
    else 0
  | _ => 0

/-- Modelled from the spec (§4.1): `GetTypeNameFromPath(root, path)` returns
the first path segment after the cache root, or the empty string when `path`
does not lie under `root`. -/
def GetTypeNameFromPath (root path : List String) : String :=
  if root.isPrefixOf path then
    match path.drop root.length with
    | t :: _ => t
    | [] => ""
  else ""

/-- Modelled from the spec (§4.5): `TypeExists(name)`. -/
def CFileCacheSet.TypeExists (s : CFileCacheSet) (name : String) : Bool :=
  (s.types.lookup name).isSome

/-- Modelled from the spec (§4.5): `DescribeType(name)`; a missing type
yields a default-constructed parameter record (all zeros), matching the
handler's unconditional call after the existence check. -/
def CFileCacheSet.DescribeType (s : CFileCacheSet) (name : String) : CCacheParamValues :=
  ((s.types.lookup name).map (fun t => t.params)).getD ⟨0, 0, 0, 0, 0⟩

/-- Modelled from the spec (§3): whether the named type is a directory type;
false for an unknown type. -/
def CFileCacheSet.isTypeDirType (s : CFileCacheSet) (name : String) : Bool :=
  ((s.types.lookup name).map (fun t => t.dirType)).getD false

/-- Modelled from the spec (§4.5): the reverse index `id → typeName`; the
empty string when no object carries the id. -/
def CFileCacheSet.GetTypeForObjectId (s : CFileCacheSet) (id : Nat) : String :=
  ((s.objects.lookup id).map (fun o => o.typeName)).getD ""

/-- Modelled from the spec: `CachedObjectSize(id)` returns the recorded size,
negative when the object cannot be located (the handler tests `< 0`). -/
def CFileCacheSet.CachedObjectSize (s : CFileCacheSet) (id : Nat) : Int :=
  ((s.objects.lookup id).map (fun o => o.size)).getD (-1)

/-- Modelled from the spec: `CachedObjectFilename(id)` returns the stored
filename, empty when the object cannot be located. -/
def CFileCacheSet.CachedObjectFilename (s : CFileCacheSet) (id : Nat) : String :=
  ((s.objects.lookup id).map (fun o => o.filename)).getD ""

/-- Modelled from the spec (§4.4 `Remove(id)`): drop the record from the
object table (the on-disk path is deleted with it). -/
def CFileCacheSet.RemoveObject (s : CFileCacheSet) (id : Nat) : CFileCacheSet :=
  { s with objects := s.objects.filter fun q => q.1 != id }

/-- Modelled from the spec (§4.4): raise the `pendingExpire` bit of the
object with the given id. -/
def CFileCacheSet.SetPendingExpire (s : CFileCacheSet) (id : Nat) : CFileCacheSet :=
  { s with objects := updateAssoc s.objects id fun o => { o with pendingExpire := true } }

/-- Modelled from the spec (§4.4 `Expire(id)`): "if evictable, `Remove`; else
set `pendingExpire`, return `DeferredExpire`".  The boolean mirrors the
return value the handler tests: `true` when the object was expired (or no
object carries the id), `false` when the expire was deferred. -/
def CFileCacheSet.ExpireCacheObject (s : CFileCacheSet) (id : Nat) : Bool × CFileCacheSet :=
  match s.objects.lookup id with
  | none => (true, s)
  | some o =>
    if o.IsEvictable then (true, s.RemoveObject id)
    else (false, s.SetPendingExpire id)

/-- Modelled from the spec (§4.4 `Unsubscribe(id)`, §4.6): decrement the
subscriber count of the object owned by `typeName`; when the count reaches 0
with `writeOpen` false and `pendingExpire` raised, remove the object
immediately. -/
def CFileCacheSet.UnSubscribeCacheObject (s : CFileCacheSet) (typeName : String) (id : Nat) :
    CFileCacheSet :=
  match s.objects.lookup id with
  | none => s
  | some o =>
    if o.typeName = typeName then
      if o.subscriberCount - 1 = 0 ∧ o.writeOpen = false ∧ o.pendingExpire = true then
        s.RemoveObject id
      else
        { s with
          objects := updateAssoc s.objects id fun q =>
            { q with subscriberCount := q.subscriberCount - 1 } }
    else s

/-- Modelled from the spec (§4.5 `ChangeType`): "partial update; omitted
fields retain current value".  At the core's interface an omitted payload
field arrives as 0 (the handler reads absent fields as 0), so a zero field
retains the current value. -/
def applyPartialParams (cur p : CCacheParamValues) : CCacheParamValues :=
  { loWatermark := if p.loWatermark = 0 then cur.loWatermark else p.loWatermark
    hiWatermark := if p.hiWatermark = 0 then cur.hiWatermark else p.hiWatermark
    size := if p.size = 0 then cur.size else p.size
    cost := if p.cost = 0 then cur.cost else p.cost
    lifetime := if p.lifetime = 0 then cur.lifetime else p.lifetime }

/-- Point update of the type registry. -/
def CFileCacheSet.updateType (s : CFileCacheSet) (name : String) (f : FileCacheType → FileCacheType) :
    CFileCacheSet :=
  { s with types := updateAssoc s.types name f }

/-- Modelled from the spec (§4.5): `CFileCacheSet::ChangeType` applies the
partial update; per the spec "`hiWatermark` (when nonzero) must remain
strictly greater than `loWatermark`", so a post-update violation fails
(`none`, surfaced by the handler as `ChangeError`) and leaves the type
unchanged, as does an unknown type name. -/
def CFileCacheSet.ChangeType (s : CFileCacheSet) (name : String) (p : CCacheParamValues) :
    Option CFileCacheSet :=
  match s.types.lookup name with
  | none => none
  | some t =>
    let newParams := applyPartialParams t.params p
    if newParams.hiWatermark ≤ newParams.loWatermark then none
    else some (s.updateType name fun t0 => { t0 with params := newParams })

/-- Modelled from the spec (§4.5): `CFileCacheSet::DefineType` registers the
new type; the disk-failure `DefineError` path is not modelled (no claim
depends on it). -/
def CFileCacheSet.DefineType (s : CFileCacheSet) (name : String) (params : CCacheParamValues)
    (dirType : Bool) : CFileCacheSet :=
  { s with types := (name, ⟨params, dirType⟩) :: s.types }

/-- Payload of a `DefineType` request after schema validation: `typeName`
required; numeric fields read with `payload.get` default to 0 and `dirType`
to false when absent, exactly as in `CategoryHandler::DefineType`. -/
structure DefineTypePayload where
  typeName : String
  loWatermark : Int
  hiWatermark : Int
  size : Int
  cost : Int
  lifetime : Int
  dirType : Bool
deriving DecidableEq, Repr

/-- Payload of a `ChangeType` request: `typeName` required; the five numeric
fields default to 0 when absent (`CategoryHandler::ChangeType`). -/
structure ChangeTypePayload where
  typeName : String
  loWatermark : Int
  hiWatermark : Int
  size : Int
  cost : Int
  lifetime : Int
deriving DecidableEq, Repr

/-- The `CCacheParamValues` the handler builds from a `ChangeType` payload. -/
def ChangeTypePayload.toParams (p : ChangeTypePayload) : CCacheParamValues :=
  ⟨p.loWatermark, p.hiWatermark, p.size, p.cost, p.lifetime⟩

/-- Payload of an `InsertCacheObject` request: `typeName` and `fileName`
required; `size`, `cost`, `lifetime` are optional (the handler falls back to
the type defaults when `payload.get` reports them absent) and `subscribe`
defaults to false. -/
structure InsertPayload where
  typeName : String
  fileName : String
  size : Option Int
  cost : Option Int
  lifetime : Option Int
  subscribe : Bool
deriving DecidableEq, Repr

/-- Embeds `CategoryHandler::DefineType` (CategoryHandler.cpp:407-512):
reject `hiWatermark ≤ loWatermark` with `InvalidParams`; then, with
`NEEDS_CONFIGURATOR_FIX` not defined, an existing name is answered
unconditionally with `ExistsError` (no parameter comparison); otherwise the
core registers the type and the handler replies success. -/
def CategoryHandler.DefineType (s : CFileCacheSet) (p : DefineTypePayload) :
    Reply × CFileCacheSet :=
  if p.hiWatermark ≤ p.loWatermark then
    (Reply.error FCErr.invalidParams
      "DefineType: Invalid params: hiWatermark must be greater than loWatermark.", s)
  else
    if s.TypeExists p.typeName then
      (Reply.error FCErr.existsError
        ("DefineType: Type " ++ p.typeName ++ " already exists."), s)
    else
      (Reply.success,
        s.DefineType p.typeName ⟨p.loWatermark, p.hiWatermark, p.size, p.cost, p.lifetime⟩
          p.dirType)

/-- Embeds `CategoryHandler::ChangeType` (CategoryHandler.cpp:514-576):
reject with `InvalidParams` when the supplied `hiWatermark` is nonzero and
not greater than the supplied `loWatermark` (absent fields read as 0);
otherwise hand the supplied values to the core, replying success or
`ChangeError` (the core's failure text is modelled as a fixed string). -/
def CategoryHandler.ChangeType (s : CFileCacheSet) (p : ChangeTypePayload) :
    Reply × CFileCacheSet :=
  if p.hiWatermark ≠ 0 ∧ p.hiWatermark ≤ p.loWatermark then
    (Reply.error FCErr.invalidParams
      "ChangeType: Invalid params: hiWatermark must be greater than loWatermark.", s)
  else
    match s.ChangeType p.typeName p.toParams with
    | some s2 => (Reply.success, s2)
    | none => (Reply.error FCErr.changeError "ChangeType: change failed.", s)

/-- Embeds `CategoryHandler::InsertCacheObject` (CategoryHandler.cpp:664-778).
An unknown type sets the message text; `size`, `cost`, `lifetime` are
resolved from the payload or the type defaults; for a dirType type a
resolved size at most one filesystem block overwrites the message text; a
non-empty message text replies `InvalidParams` before any object is created.
`GetFilesystemFileSize(1)` is not in `src/`; it is passed as `blockSize`
(the byte size of one filesystem block, spec §3).  The core insert is not in
`src/` either and is passed as `coreInsert`, returning the new object id
(0 on failure), the new cache set and a failure text; the success branch's
subscription bookkeeping and reply payload are beyond this embedding (the
reply is success exactly when the returned id is positive). -/
def CategoryHandler.InsertCacheObject
    (coreInsert : CFileCacheSet → String → String → Int → Int → Int → Nat × CFileCacheSet × String)
    (blockSize : Int) (s : CFileCacheSet) (p : InsertPayload) : Reply × CFileCacheSet :=
  let msgText0 : Option String :=
    if s.TypeExists p.typeName then none
    else some ("InsertCacheObject: No type " ++ p.typeName ++ " defined.")
  let params := s.DescribeType p.typeName
  let size := p.size.getD params.size
  let cost := p.cost.getD params.cost
  let lifetime := p.lifetime.getD params.lifetime
  let msgText : Option String :=
    if size ≤ blockSize ∧ s.isTypeDirType p.typeName then
      some "InsertCacheObject: Invalid params: size must be greater than 1 block when dirType = true."
    else msgText0
  match msgText with
  | some m => (Reply.error FCErr.invalidParams m, s)
  | none =>
    let r := coreInsert s p.typeName p.fileName size cost lifetime
    if 0 < r.1 then (Reply.success, r.2.1)
    else (Reply.error FCErr.existsError r.2.2, r.2.1)

/-- Embeds `CategoryHandler::ExpireCacheObject` (CategoryHandler.cpp:850-924).
A zero decoded id replies `ExistsError`; a type mismatch replies
`ExistsError` when the extracted type name is empty but clears the message
text — and therefore replies success — when it is not; otherwise the core
expire runs, success when it expired and `InUseError` when it deferred. -/
def CategoryHandler.ExpireCacheObject (root : List String) (s : CFileCacheSet)
    (path : List String) : Reply × CFileCacheSet :=
  if 0 < GetObjectIdFromPath path then
    if GetTypeNameFromPath root path = s.GetTypeForObjectId (GetObjectIdFromPath path) then
      let r := s.ExpireCacheObject (GetObjectIdFromPath path)
      if r.1 then (Reply.success, r.2)
      else (Reply.error FCErr.inUseError "ExpireCacheObject: Expire deferred, object in use.", r.2)
    else
      if GetTypeNameFromPath root path = "" then
        (Reply.error FCErr.existsError "ExpireCacheObject: pathName no longer found in cache.", s)
      else
        (Reply.success, s)
  else
    (Reply.error FCErr.existsError "ExpireCacheObject: Invalid object id derived from pathname.", s)

/-- A live subscription entry held in `m_subscribers`: the stored path of the
subscribed object, plus a token standing for the request handle's identity
(distinct handles on the same path are distinct entries). -/
structure Subscription where
  token : Nat
  pathName : List String
deriving DecidableEq, Repr

/-- The handler state the subscription machinery touches: the cache set and
the `m_subscribers` vector. -/
structure HandlerState where
  set : CFileCacheSet
  subscribers : List Subscription
deriving DecidableEq, Repr

/-- Embeds `CategoryHandler::CancelSubscription` (CategoryHandler.cpp:995-1032),
reached from `Subscription::HandleCancel` when a request handle is
cancelled: when the stored path decodes to a positive object id and its
extracted type name is non-empty, `UnSubscribeCacheObject` runs on that
type/id; in every case the entry is erased from the subscriber vector
(first matching entry, as the source's pointer scan does). -/
def CategoryHandler.CancelSubscription (root : List String) (st : HandlerState)
    (sub : Subscription) : HandlerState :=
  { set :=
      if 0 < GetObjectIdFromPath sub.pathName then
        if GetTypeNameFromPath root sub.pathName ≠ "" then
          st.set.UnSubscribeCacheObject (GetTypeNameFromPath root sub.pathName)
            (GetObjectIdFromPath sub.pathName)
        else st.set
      else st.set
    subscribers := st.subscribers.erase sub }

/-- Modelled from the spec (§4.8): split a filename at its last dot; `none`
when it has no dot. -/
def lastDotSplit : List Char → Option (List Char × List Char)
  | [] => none
  | c :: rest =>
    match lastDotSplit rest with
    | some (b, e) => some (c :: b, e)
    | none => if c = '.' then some ([], c :: rest) else none

/-- Modelled from the spec (§4.8): `GetFileExtension` (in `CacheBase`, not
under `src/`) returns the extension including its dot ("foo.bar" gives
".bar"), empty for a dotless name, so that basename ++ "-(N)" ++ extension
rebuilds "foo-(N).bar". -/
def GetFileExtension (f : String) : String :=
  match lastDotSplit f.data with
  | some (_, e) => String.mk e
  | none => ""

/-- Modelled from the spec (§4.8): `GetFileBasename` returns the part before
the last dot ("foo.bar" gives "foo"), the whole name when dotless. -/
def GetFileBasename (f : String) : String :=
  match lastDotSplit f.data with
  | some (b, _) => String.mk b
  | none => f

/-- Embeds the destination-uniqueness `while` loop of
`CategoryHandler::CopyCacheObject` (CategoryHandler.cpp:1181-1190):
`while (exists(filepath/fileName) && i < max) fileName = basename-(i++)ext`.
The recursion is driven by the fuel `max - i`, so `fuel = 0` is exactly the
loop guard `i < max` failing; the pair returned is the final `(i, fileName)`. -/
def uniqueNameLoopAux (fe : String → Bool) (b e : String) :
    Nat → Nat → String → Nat × String
  | 0, i, fn => (i, fn)
  | Nat.succ fuel, i, fn =>
    if fe fn then
      uniqueNameLoopAux fe b e fuel (i + 1) (b ++ "-(" ++ toString i ++ ")" ++ e)
    else (i, fn)

/-- The uniqueness loop entered with `i = 1`, as in the source. -/
def uniqueNameLoop (fe : String → Bool) (maxIdx : Nat) (b e fn : String) : Nat × String :=
  uniqueNameLoopAux fe b e (maxIdx - 1) 1 fn

/-- The filesystem facts `CopyCacheObject` consults about its destination:
whether the destination path exists, whether it is a directory, and which
file names already exist inside it. -/
structure FsView where
  destExists : Bool
  destIsDir : Bool
  fileExists : String → Bool

/-- Default download directory, created at process start
(`FileCacheServiceApp.cpp:48-56`); the handler's `s_defaultDownloadDir`. -/
def s_defaultDownloadDir : String := "/media/internal/downloads"

/-- Destination resolution of `CategoryHandler::CopyCacheObject`
(CategoryHandler.cpp:1100-1108): an absent or empty `destination` parameter
falls back to the default download directory. -/
def CategoryHandler.ResolvedDestination (destOpt : Option String) : String :=
  match destOpt with
  | some d => if d = "" then s_defaultDownloadDir else d
  | none => s_defaultDownloadDir

/-- Fallback file name lookup of `CategoryHandler::CopyCacheObject`
(CategoryHandler.cpp:1136-1145): when no `fileName` parameter was supplied
the object's stored filename is used; an empty stored filename is an
`ArgumentError`. -/
def CategoryHandler.CopyFallbackFileName (s : CFileCacheSet) (path : List String) :
    Option String × FCErr × String :=
  if s.CachedObjectFilename (GetObjectIdFromPath path) = "" then
    (some "CopyCacheObject: No fileName specified or found.", FCErr.argumentError, "")
  else (none, FCErr.errorNone, s.CachedObjectFilename (GetObjectIdFromPath path))

/-- Object-resolution phase of `CategoryHandler::CopyCacheObject`
(CategoryHandler.cpp:1115-1160): returns the message text, the error code
and the copy file name `(msgText, errCode, fileName)` as they stand after
the resolution `if` cascade (`fileName` stays empty on every failure path). -/
def CategoryHandler.CopyResolve (root : List String) (s : CFileCacheSet)
    (path : List String) (fileNameOpt : Option String) : Option String × FCErr × String :=
  if 0 < GetObjectIdFromPath path then
    if GetTypeNameFromPath root path = s.GetTypeForObjectId (GetObjectIdFromPath path) then
      if s.CachedObjectSize (GetObjectIdFromPath path) < 0 then
        (some "CopyCacheObject: Could not locate object", FCErr.existsError, "")
      else
        match fileNameOpt with
        | some f =>
          if f = "" then CategoryHandler.CopyFallbackFileName s path
          else (none, FCErr.errorNone, f)
        | none => CategoryHandler.CopyFallbackFileName s path
    else (some "CopyCacheObject: pathName no longer found in cache.", FCErr.existsError, "")
  else (some "CopyCacheObject: Invalid object id derived from pathname.", FCErr.existsError, "")

/-- Outcome of a `CopyCacheObject` request: an immediate reply, or an
asynchronous copy started towards the chosen destination file
(`CategoryHandler::CopyFile`, which replies later). -/
inductive CopyOutcome where
  | reply (code : FCErr) (msg : String)
  | copyStarted (source : List String) (destination : String)
deriving DecidableEq, Repr

/-- Embeds `CategoryHandler::CopyCacheObject` (CategoryHandler.cpp:1087-1233).
After object resolution the sandbox check on the resolved destination runs
unconditionally; a denial overwrites any earlier message text and error
code with `PermError`.  Otherwise the destination directory is ensured
(`create_directories` makes a fresh destination a directory); inside a
directory the uniqueness loop runs and a final index equal to
`s_maxUniqueFileIndex` overwrites message and code with `ArgumentError`;
a non-directory destination likewise overwrites with `ArgumentError`.  The
reply is the final error text when non-empty, else the asynchronous copy is
started.  The sandbox oracle `SBIsPathAllowed` and the filesystem are passed
in as `sbAllowed` and `fsv`; `s_maxUniqueFileIndex` as `maxIdx`; the
exception branch (filesystem errors, `DirectoryError`) is not modelled. -/
def CategoryHandler.CopyCacheObject (sbAllowed : String → Bool) (fsv : FsView)
    (maxIdx : Nat) (root : List String) (s : CFileCacheSet) (path : List String)
    (destOpt fileNameOpt : Option String) : CopyOutcome :=
  let res := CategoryHandler.CopyResolve root s path fileNameOpt
  if sbAllowed (CategoryHandler.ResolvedDestination destOpt) = false then
    CopyOutcome.reply FCErr.permError "CopyCacheObject: Invalid destination, no write permission."
  else
    if (if fsv.destExists then fsv.destIsDir else true) = true then
      let r := uniqueNameLoop fsv.fileExists maxIdx (GetFileBasename res.2.2)
        (GetFileExtension res.2.2) res.2.2
      if r.1 = maxIdx then
        CopyOutcome.reply FCErr.argumentError "CopyCacheObject: No unique destination name found."
      else
        match res.1 with
        | some m => CopyOutcome.reply res.2.1 m
        | none =>
          CopyOutcome.copyStarted path (CategoryHandler.ResolvedDestination destOpt ++ "/" ++ r.2)
    else
      CopyOutcome.reply FCErr.argumentError "CopyCacheObject: Invalid destination, not a directory."

/-- The maintenance calls a timer firing performs, in order. -/
inductive MaintAction where
  | cleanupOrphans
  | checkSubscribed (typeName : String) (objId : Nat)
  | cleanupDirTypes
deriving DecidableEq, Repr

/-- Embeds `CategoryHandler::WorkerHandler` (CategoryHandler.cpp:1439-1463):
first `CleanupOrphans()`, then one `CheckSubscribedObject` per entry of
`m_subscribers`, with type name and object id derived from the stored path. -/
def CategoryHandler.WorkerHandler (root : List String) (subscribers : List Subscription) :
    List MaintAction :=
  MaintAction.cleanupOrphans ::
    subscribers.map fun sub =>
      MaintAction.checkSubscribed (GetTypeNameFromPath root sub.pathName)
        (GetObjectIdFromPath sub.pathName)

/-- Embeds `CategoryHandler::CleanerHandler` (CategoryHandler.cpp:1465-1475):
`CleanupDirTypes()`. -/
def CategoryHandler.CleanerHandler : List MaintAction := [MaintAction.cleanupDirTypes]

/-- `CategoryHandler::TimerCallback` returns `true` (CategoryHandler.cpp:1498),
so glib keeps the 15-second source armed. -/
def CategoryHandler.TimerCallbackReturn : Bool := true

/-- `CategoryHandler::CleanerCallback` returns `false`
(CategoryHandler.cpp:1510-1511, "return false here as this is a one shot"),
so glib removes the 120-second source after its first firing. -/
def CategoryHandler.CleanerCallbackReturn : Bool := false

/-- A glib timeout source as armed by `g_timeout_add_seconds(period, cb, ...)`:
first firing `period` seconds after registration; re-armed with the same
period for as long as the callback returns `true`, removed when it returns
`false` (standard glib semantics; glib itself is outside the repository). -/
structure TimeoutSource where
  period : Nat
  again : Bool
deriving DecidableEq, Repr

/-- Whether the source fires at second `t` after registration: at every
positive multiple of the period while the callback keeps returning `true`,
at the single instant `period` when it returns `false`. -/
def TimeoutSource.fires (src : TimeoutSource) (t : Nat) : Bool :=
  if src.again then decide (src.period ≤ t) && decide (t % src.period = 0)
  else t == src.period

/-- Embeds `CategoryHandler::SetupWorkerTimer` (CategoryHandler.cpp:1477-1487):
the worker source, `g_timeout_add_seconds(15, &TimerCallback, this)`. -/
def CategoryHandler.workerSource : TimeoutSource :=
  ⟨15, CategoryHandler.TimerCallbackReturn⟩

/-- Embeds `CategoryHandler::SetupWorkerTimer` (CategoryHandler.cpp:1477-1487):
the cleaner source, `g_timeout_add_seconds(120, &CleanerCallback, this)`. -/
def CategoryHandler.cleanerSource : TimeoutSource :=
  ⟨120, CategoryHandler.CleanerCallbackReturn⟩

/-- A core insert that always fails, usable to instantiate the `coreInsert`
parameter where the outcome does not matter. -/
def trivialCoreInsert : CFileCacheSet → String → String → Int → Int → Int →
    Nat × CFileCacheSet × String :=
  fun s _ _ _ _ _ => (0, s, "InsertCacheObject: insert failed.")

/-- Sample cache root for concrete evaluations. -/
def sampleRoot : List String := ["cache"]

/-- Sample object path under the root: type `media`, shard `00`, 14-digit
hexadecimal tail encoding object id 14. -/
def samplePath : List String := ["cache", "media", "00", "0000000000000e"]

/-- A path outside the cache root whose decoded object id is 0. -/
def strayPath : List String := ["elsewhere"]

/-- Sample cached object: one subscriber, not write-open, no pending expire. -/
def sampleObject : CacheObject := ⟨"media", "foo.bar", 10, 1, false, false⟩

/-- Sample cache set: one type `media` holding the sample object as id 14. -/
def sampleSet : CFileCacheSet :=
  ⟨[("media", ⟨⟨100, 1000, 10, 50, 0⟩, false⟩)], [(14, sampleObject)]⟩

/-- A cache set with no types and no objects. -/
def emptySet : CFileCacheSet := ⟨[], []⟩

/-- A cache set with a single directory type `backup` (default size 8192). -/
def dirTypeSet : CFileCacheSet := ⟨[("backup", ⟨⟨4096, 65536, 8192, 50, 0⟩, true⟩)], []⟩

/-- A cache set whose type `media` has loWatermark 200 and hiWatermark 300. -/
def c2Set : CFileCacheSet := ⟨[("media", ⟨⟨200, 300, 10, 1, 0⟩, false⟩)], []⟩

/-- A `ChangeType` payload supplying only `hiWatermark = 150` (all other
numeric fields absent, read as 0). -/
def c2Payload : ChangeTypePayload := ⟨"media", 0, 150, 0, 0, 0⟩

/-- Destination directory holding `foo.bar` only. -/
def collideOnce : FsView := ⟨true, true, fun n => n == "foo.bar"⟩

/-- Destination directory holding `foo.bar` and `foo-(1).bar`. -/
def collideTwice : FsView := ⟨true, true, fun n => n == "foo.bar" || n == "foo-(1).bar"⟩

theorem lookup_updateAssoc {α β : Type} [DecidableEq α] [BEq α] [LawfulBEq α]
    (l : List (α × β)) (k : α) (f : β → β) :
    (updateAssoc l k f).lookup k = (l.lookup k).map f := by
  induction l with
  | nil => rfl
  | cons q rest ih =>
    obtain ⟨a, b⟩ := q
    by_cases h : a = k
    · subst h
      show List.lookup a ((if a = a then (a, f b) else (a, b)) :: updateAssoc rest a f) =
        Option.map f (List.lookup a ((a, b) :: rest))
      rw [if_pos rfl]
      simp [List.lookup]
    · show List.lookup k ((if a = k then (k, f b) else (a, b)) :: updateAssoc rest k f) =
        Option.map f (List.lookup k ((a, b) :: rest))
      rw [if_neg h]
      have hbeq : (k == a) = false := by
        simp only [beq_eq_false_iff_ne]
        exact fun hh => h hh.symm
      simp only [List.lookup, hbeq]
      exact ih

/-- Claim C1: an `ExpireCacheObject` request whose target object is
non-evictable (`subscriberCount > 0` or `writeOpen`) does not remove the
object; its `pendingExpire` flag is raised and the reply carries the
`InUseError` code marking the expire as deferred. -/
theorem claimC1_expire_nonevictable_deferred (root path : List String) (s : CFileCacheSet)
    (id : Nat) (o : CacheObject)
    (hdec : GetObjectIdFromPath path = id) (hid : 0 < id)
    (hobj : s.objects.lookup id = some o)
    (htype : GetTypeNameFromPath root path = o.typeName)
    (hne : 0 < o.subscriberCount ∨ o.writeOpen = true) :
    (CategoryHandler.ExpireCacheObject root s path).1 =
      Reply.error FCErr.inUseError "ExpireCacheObject: Expire deferred, object in use." ∧
    (CategoryHandler.ExpireCacheObject root s path).2.objects.lookup id =
      some { o with pendingExpire := true } := by
  have hev : o.IsEvictable = false := by
    rcases hne with h | h
    · have h0 : o.subscriberCount ≠ 0 := Nat.pos_iff_ne_zero.mp h
      simp [CacheObject.IsEvictable, h0]
    · simp [CacheObject.IsEvictable, h]
  have hreg : s.GetTypeForObjectId id = o.typeName := by
    simp [CFileCacheSet.GetTypeForObjectId, hobj]
  simp [CategoryHandler.ExpireCacheObject, hdec, hid, hreg, htype,
    CFileCacheSet.ExpireCacheObject, hobj, hev, CFileCacheSet.SetPendingExpire,
    lookup_updateAssoc]

theorem claimC1_witness :
    GetObjectIdFromPath samplePath = 14 ∧
    sampleSet.objects.lookup 14 = some sampleObject ∧
    (CategoryHandler.ExpireCacheObject sampleRoot sampleSet samplePath).1 =
      Reply.error FCErr.inUseError "ExpireCacheObject: Expire deferred, object in use." ∧
    (CategoryHandler.ExpireCacheObject sampleRoot sampleSet samplePath).2.objects.lookup 14 =
      some { sampleObject with pendingExpire := true } := by
  refine ⟨by decide, by decide, ?_⟩
  exact claimC1_expire_nonevictable_deferred sampleRoot samplePath sampleSet 14 sampleObject
    (by decide) (by decide) (by decide) (by decide) (Or.inl (by decide))

/-- Claim C8: when the path of an `ExpireCacheObject` request decodes to a
positive object id but the extracted type name differs from the type
registered for that id, the handler replies success whenever the extracted
type name is non-empty (the message text is cleared), and `ExistsError`
exactly when it is empty; the cache set is untouched either way. -/
theorem claimC8_expire_type_mismatch (root path : List String) (s : CFileCacheSet)
    (hid : 0 < GetObjectIdFromPath path)
    (hmm : GetTypeNameFromPath root path ≠ s.GetTypeForObjectId (GetObjectIdFromPath path)) :
    CategoryHandler.ExpireCacheObject root s path =
      (if GetTypeNameFromPath root path = "" then
         Reply.error FCErr.existsError "ExpireCacheObject: pathName no longer found in cache."
       else Reply.success, s) := by
  by_cases he : GetTypeNameFromPath root path = ""
  · have hmm2 : ¬ ("" = s.GetTypeForObjectId (GetObjectIdFromPath path)) := by
      rw [← he]; exact hmm
    simp [CategoryHandler.ExpireCacheObject, hid, hmm2, he]
  · simp [CategoryHandler.ExpireCacheObject, hid, hmm, he]

theorem claimC8_witness :
    0 < GetObjectIdFromPath samplePath ∧
    GetTypeNameFromPath sampleRoot samplePath ≠
      emptySet.GetTypeForObjectId (GetObjectIdFromPath samplePath) ∧
    CategoryHandler.ExpireCacheObject sampleRoot emptySet samplePath =
      (Reply.success, emptySet) := by
  refine ⟨by decide, by decide, ?_⟩
  have h := claimC8_expire_type_mismatch sampleRoot samplePath emptySet (by decide) (by decide)
  rw [if_neg (by decide)] at h
  exact h

/-- Claim C10: an `InsertCacheObject` request naming an undefined type
creates no object (the cache set is returned unchanged) and is answered
with the `InvalidParams` code — the code used for semantic parameter
errors — not with `ExistsError`. -/
theorem claimC10_insert_unknown_type
    (coreInsert : CFileCacheSet → String → String → Int → Int → Int →
      Nat × CFileCacheSet × String)
    (blockSize : Int) (s : CFileCacheSet) (p : InsertPayload)
    (h : s.types.lookup p.typeName = none) :
    CategoryHandler.InsertCacheObject coreInsert blockSize s p =
      (Reply.error FCErr.invalidParams
        ("InsertCacheObject: No type " ++ p.typeName ++ " defined."), s) := by
  have h1 : s.TypeExists p.typeName = false := by simp [CFileCacheSet.TypeExists, h]
  have h2 : s.isTypeDirType p.typeName = false := by simp [CFileCacheSet.isTypeDirType, h]
  simp [CategoryHandler.InsertCacheObject, h1, h2]

theorem claimC10_witness :
    sampleSet.types.lookup "nosuch" = none ∧
    CategoryHandler.InsertCacheObject trivialCoreInsert 4096 sampleSet
        ⟨"nosuch", "f.txt", none, none, none, false⟩ =
      (Reply.error FCErr.invalidParams
        ("InsertCacheObject: No type " ++ "nosuch" ++ " defined."), sampleSet) :=
  ⟨by decide,
    claimC10_insert_unknown_type trivialCoreInsert 4096 sampleSet
      ⟨"nosuch", "f.txt", none, none, none, false⟩ (by decide)⟩

/-- Claim C4: for an insert into a dirType type, a resolved size (payload
value, else the type default) at most one filesystem block is rejected with
`InvalidParams` and no object is created; a resolved size strictly above one
block passes this validation, so the reply's code is never `InvalidParams`. -/
theorem claimC4_insert_dirtype_blocksize
    (coreInsert : CFileCacheSet → String → String → Int → Int → Int →
      Nat × CFileCacheSet × String)
    (blockSize : Int) (s : CFileCacheSet) (p : InsertPayload) (t : FileCacheType)
    (ht : s.types.lookup p.typeName = some t) (hdir : t.dirType = true) :
    (p.size.getD t.params.size ≤ blockSize →
      CategoryHandler.InsertCacheObject coreInsert blockSize s p =
        (Reply.error FCErr.invalidParams
          "InsertCacheObject: Invalid params: size must be greater than 1 block when dirType = true.",
         s)) ∧
    (blockSize < p.size.getD t.params.size →
      (CategoryHandler.InsertCacheObject coreInsert blockSize s p).1.errCode ≠
        FCErr.invalidParams) := by
  have hex : s.TypeExists p.typeName = true := by simp [CFileCacheSet.TypeExists, ht]
  have hdt : s.isTypeDirType p.typeName = true := by
    simp [CFileCacheSet.isTypeDirType, ht, hdir]
  have hdesc : s.DescribeType p.typeName = t.params := by
    simp [CFileCacheSet.DescribeType, ht]
  constructor
  · intro hle
    simp [CategoryHandler.InsertCacheObject, hex, hdt, hdesc, hle]
  · intro hgt
    have hnot : ¬ p.size.getD t.params.size ≤ blockSize := not_le.mpr hgt
    by_cases h0 : 0 < (coreInsert s p.typeName p.fileName (p.size.getD t.params.size)
        (p.cost.getD t.params.cost) (p.lifetime.getD t.params.lifetime)).1
    · simp [CategoryHandler.InsertCacheObject, hex, hdt, hdesc, hnot, h0, Reply.errCode]
    · simp [CategoryHandler.InsertCacheObject, hex, hdt, hdesc, hnot, h0, Reply.errCode]

theorem claimC4_witness :
    dirTypeSet.types.lookup "backup" = some ⟨⟨4096, 65536, 8192, 50, 0⟩, true⟩ ∧
    (4096 : Int) ≤ 4096 ∧
    CategoryHandler.InsertCacheObject trivialCoreInsert 4096 dirTypeSet
        ⟨"backup", "b.tar", some 4096, none, none, false⟩ =
      (Reply.error FCErr.invalidParams
        "InsertCacheObject: Invalid params: size must be greater than 1 block when dirType = true.",
       dirTypeSet) :=
  ⟨by decide, by decide,
    (claimC4_insert_dirtype_blocksize trivialCoreInsert 4096 dirTypeSet
      ⟨"backup", "b.tar", some 4096, none, none, false⟩
      ⟨⟨4096, 65536, 8192, 50, 0⟩, true⟩ (by decide) (by decide)).1 (by decide)⟩

/-- Claim C3 (amended): a `DefineType` request that passes the watermark
validation (`hiWatermark > loWatermark`) and names an existing type is
answered with `ExistsError` and leaves the cache set — in particular the
existing type's parameters — unchanged, regardless of whether the supplied
parameters match the current ones; a request naming an existing type whose
`hiWatermark ≤ loWatermark` is instead rejected with `InvalidParams` (the
watermark check precedes the existence check), also leaving the set
unchanged. -/
theorem claimC3_defineType_existing (s : CFileCacheSet) (p : DefineTypePayload) :
    (p.loWatermark < p.hiWatermark → s.TypeExists p.typeName = true →
      CategoryHandler.DefineType s p =
        (Reply.error FCErr.existsError
          ("DefineType: Type " ++ p.typeName ++ " already exists."), s)) ∧
    (p.hiWatermark ≤ p.loWatermark →
      CategoryHandler.DefineType s p =
        (Reply.error FCErr.invalidParams
          "DefineType: Invalid params: hiWatermark must be greater than loWatermark.", s)) := by
  constructor
  · intro h1 h2
    have hn : ¬ p.hiWatermark ≤ p.loWatermark := not_le.mpr h1
    simp [CategoryHandler.DefineType, hn, h2]
  · intro h1
    simp [CategoryHandler.DefineType, h1]

theorem claimC3_counterexample :
    sampleSet.TypeExists "media" = true ∧
    (CategoryHandler.DefineType sampleSet ⟨"media", 5, 3, 0, 0, 0, false⟩).1.errCode =
      FCErr.invalidParams ∧
    FCErr.invalidParams ≠ FCErr.existsError := by decide

theorem claimC3_witness :
    (5 : Int) < 100 ∧ sampleSet.TypeExists "media" = true ∧
    CategoryHandler.DefineType sampleSet ⟨"media", 5, 100, 0, 0, 0, false⟩ =
      (Reply.error FCErr.existsError
        ("DefineType: Type " ++ "media" ++ " already exists."), sampleSet) :=
  ⟨by decide, by decide,
    (claimC3_defineType_existing sampleSet ⟨"media", 5, 100, 0, 0, 0, false⟩).1
      (by decide) (by decide)⟩

/-- Claim C2 (amended): the `InvalidParams` guard of `ChangeType` compares
only the values supplied in the request (absent fields read as 0): a
supplied nonzero `hiWatermark` not exceeding the supplied `loWatermark` is
rejected with `InvalidParams` and the set is unchanged.  The guard does not
consult the type's current values, so a request whose partial update
(omitted fields retaining their current values) would leave `hiWatermark ≤
loWatermark` passes the guard and is rejected by the core with
`ChangeError`, the type again unchanged; consequently after any `ChangeType`
that replies success the type still satisfies
`loWatermark < hiWatermark`. -/
theorem claimC2_changeType_watermarks (s : CFileCacheSet) (p : ChangeTypePayload) :
    (p.hiWatermark ≠ 0 ∧ p.hiWatermark ≤ p.loWatermark →
      CategoryHandler.ChangeType s p =
        (Reply.error FCErr.invalidParams
          "ChangeType: Invalid params: hiWatermark must be greater than loWatermark.", s)) ∧
    (∀ t, s.types.lookup p.typeName = some t →
      ¬ (p.hiWatermark ≠ 0 ∧ p.hiWatermark ≤ p.loWatermark) →
      (applyPartialParams t.params p.toParams).hiWatermark ≤
        (applyPartialParams t.params p.toParams).loWatermark →
      CategoryHandler.ChangeType s p =
        (Reply.error FCErr.changeError "ChangeType: change failed.", s)) ∧
    (∀ s2, CategoryHandler.ChangeType s p = (Reply.success, s2) →
      ∀ t2, s2.types.lookup p.typeName = some t2 →
      t2.params.loWatermark < t2.params.hiWatermark) := by
  refine ⟨?_, ?_, ?_⟩
  · intro h
    simp [CategoryHandler.ChangeType, h]
  · intro t ht hg hv
    simp [CategoryHandler.ChangeType, hg, CFileCacheSet.ChangeType, ht, hv]
  · intro s2 hs2 t2 ht2
    by_cases hg : p.hiWatermark ≠ 0 ∧ p.hiWatermark ≤ p.loWatermark
    · simp [CategoryHandler.ChangeType, hg] at hs2
    · rcases hlook : s.types.lookup p.typeName with _ | t
      · simp [CategoryHandler.ChangeType, hg, CFileCacheSet.ChangeType, hlook] at hs2
      · by_cases hv : (applyPartialParams t.params p.toParams).hiWatermark ≤
            (applyPartialParams t.params p.toParams).loWatermark
        · simp [CategoryHandler.ChangeType, hg, CFileCacheSet.ChangeType, hlook, hv] at hs2
        · have hs2' : s.updateType p.typeName
              (fun t0 => { t0 with params := applyPartialParams t.params p.toParams }) = s2 := by
            simpa [CategoryHandler.ChangeType, hg, CFileCacheSet.ChangeType, hlook, hv]
              using hs2
          rw [← hs2'] at ht2
          simp only [CFileCacheSet.updateType] at ht2
          rw [lookup_updateAssoc, hlook] at ht2
          simp only [Option.map_some'] at ht2
          injection ht2 with h3
          rw [← h3]
          exact not_le.mp hv

theorem claimC2_counterexample :
    c2Payload.hiWatermark ≠ 0 ∧
    (applyPartialParams ⟨200, 300, 10, 1, 0⟩ c2Payload.toParams).hiWatermark ≤
      (applyPartialParams ⟨200, 300, 10, 1, 0⟩ c2Payload.toParams).loWatermark ∧
    (CategoryHandler.ChangeType c2Set c2Payload).1.errCode ≠ FCErr.invalidParams ∧
    (CategoryHandler.ChangeType c2Set c2Payload).2 = c2Set := by decide

theorem claimC2_witness :
    CategoryHandler.ChangeType c2Set c2Payload =
      (Reply.error FCErr.changeError "ChangeType: change failed.", c2Set) :=
  (claimC2_changeType_watermarks c2Set c2Payload).2.1 ⟨⟨200, 300, 10, 1, 0⟩, false⟩
    (by decide) (by decide) (by decide)

/-- Claim C7: cancelling a subscription whose stored path decodes to a
positive object id and extracts a non-empty type name removes the entry
from the handler's subscriber list and runs `UnSubscribeCacheObject` on the
type name and object id derived from that stored path. -/
theorem claimC7_cancel_unsubscribes (root : List String) (st : HandlerState)
    (sub : Subscription)
    (hid : 0 < GetObjectIdFromPath sub.pathName)
    (ht : GetTypeNameFromPath root sub.pathName ≠ "") :
    CategoryHandler.CancelSubscription root st sub =
      { set := st.set.UnSubscribeCacheObject (GetTypeNameFromPath root sub.pathName)
          (GetObjectIdFromPath sub.pathName),
        subscribers := st.subscribers.erase sub } := by
  simp [CategoryHandler.CancelSubscription, hid, ht]

theorem claimC7_witness :
    0 < GetObjectIdFromPath samplePath ∧
    GetTypeNameFromPath sampleRoot samplePath ≠ "" ∧
    CategoryHandler.CancelSubscription sampleRoot ⟨sampleSet, [⟨1, samplePath⟩]⟩
        ⟨1, samplePath⟩ =
      { set := sampleSet.UnSubscribeCacheObject "media" 14, subscribers := [] } := by
  refine ⟨by decide, by decide, ?_⟩
  exact (claimC7_cancel_unsubscribes sampleRoot ⟨sampleSet, [⟨1, samplePath⟩]⟩ ⟨1, samplePath⟩
    (by decide) (by decide)).trans (by decide)

/-- Claim C9: the sandbox check on the resolved copy destination runs
whatever came out of object resolution; a denial makes the final reply
`PermError`, overwriting any `ExistsError` or `ArgumentError` the
resolution produced. -/
theorem claimC9_copy_sandbox_denied (sbAllowed : String → Bool) (fsv : FsView)
    (maxIdx : Nat) (root : List String) (s : CFileCacheSet) (path : List String)
    (destOpt fileNameOpt : Option String)
    (hsb : sbAllowed (CategoryHandler.ResolvedDestination destOpt) = false) :
    CategoryHandler.CopyCacheObject sbAllowed fsv maxIdx root s path destOpt fileNameOpt =
      CopyOutcome.reply FCErr.permError
        "CopyCacheObject: Invalid destination, no write permission." := by
  simp [CategoryHandler.CopyCacheObject, hsb]

theorem claimC9_witness :
    GetObjectIdFromPath strayPath = 0 ∧
    CategoryHandler.CopyCacheObject (fun _ => false) collideOnce 1000 sampleRoot sampleSet
        strayPath (some "/tmp/dl") none =
      CopyOutcome.reply FCErr.permError
        "CopyCacheObject: Invalid destination, no write permission." :=
  ⟨by decide,
    claimC9_copy_sandbox_denied (fun _ => false) collideOnce 1000 sampleRoot sampleSet
      strayPath (some "/tmp/dl") none rfl⟩

theorem uniqueNameLoopAux_fst_all (fe : String → Bool) (b e : String)
    (hfe : ∀ x, fe x = true) :
    ∀ (fuel i : Nat) (fn : String), (uniqueNameLoopAux fe b e fuel i fn).1 = i + fuel := by
  intro fuel
  induction fuel with
  | zero => intro i fn; rfl
  | succ fuel ih =>
    intro i fn
    have hred : uniqueNameLoopAux fe b e (fuel + 1) i fn =
        uniqueNameLoopAux fe b e fuel (i + 1) (b ++ "-(" ++ toString i ++ ")" ++ e) := by
      simp [uniqueNameLoopAux, hfe]
    rw [hred, ih]
    omega

theorem uniqueNameLoopAux_snd_shape (fe : String → Bool) (b e : String) :
    ∀ (fuel i : Nat) (fn : String),
      (uniqueNameLoopAux fe b e fuel i fn).2 = fn ∨
      ∃ N, i ≤ N ∧ N < i + fuel ∧
        (uniqueNameLoopAux fe b e fuel i fn).2 = b ++ "-(" ++ toString N ++ ")" ++ e := by
  intro fuel
  induction fuel with
  | zero => intro i fn; left; rfl
  | succ fuel ih =>
    intro i fn
    by_cases h : fe fn = true
    · have hred : uniqueNameLoopAux fe b e (fuel + 1) i fn =
          uniqueNameLoopAux fe b e fuel (i + 1) (b ++ "-(" ++ toString i ++ ")" ++ e) := by
        simp [uniqueNameLoopAux, h]
      rw [hred]
      rcases ih (i + 1) (b ++ "-(" ++ toString i ++ ")" ++ e) with h2 | ⟨N, h3, h4, h5⟩
      · right
        exact ⟨i, le_refl i, by omega, h2⟩
      · right
        exact ⟨N, by omega, by omega, h5⟩
    · left
      simp [uniqueNameLoopAux, h]

/-- Claim C5: when the chosen destination file name collides in the
destination directory, `CopyCacheObject` uniquifies it by appending `-(N)`
to the basename before the extension, with successive `N` starting at 1: a
colliding `foo.bar` yields `foo-(1).bar` and a further collision
`foo-(2).bar`; every appended index satisfies `N < s_maxUniqueFileIndex`;
and when no unique name is found within the bound the reply is
`ArgumentError` and no copy is started. -/
theorem claimC5_copy_unique_name :
    (CategoryHandler.CopyCacheObject (fun _ => true) collideOnce 1000 sampleRoot sampleSet
        samplePath (some "/tmp/dl") none =
      CopyOutcome.copyStarted samplePath "/tmp/dl/foo-(1).bar") ∧
    (CategoryHandler.CopyCacheObject (fun _ => true) collideTwice 1000 sampleRoot sampleSet
        samplePath (some "/tmp/dl") none =
      CopyOutcome.copyStarted samplePath "/tmp/dl/foo-(2).bar") ∧
    (∀ (fe : String → Bool) (maxIdx : Nat) (b e fn : String),
      (uniqueNameLoop fe maxIdx b e fn).2 = fn ∨
      ∃ N, 1 ≤ N ∧ N < maxIdx ∧
        (uniqueNameLoop fe maxIdx b e fn).2 = b ++ "-(" ++ toString N ++ ")" ++ e) ∧
    (∀ (sbAllowed : String → Bool) (fsv : FsView) (maxIdx : Nat) (root : List String)
        (s : CFileCacheSet) (path : List String) (destOpt fileNameOpt : Option String),
      sbAllowed (CategoryHandler.ResolvedDestination destOpt) = true →
      (if fsv.destExists then fsv.destIsDir else true) = true →
      (∀ n, fsv.fileExists n = true) →
      1 ≤ maxIdx →
      CategoryHandler.CopyCacheObject sbAllowed fsv maxIdx root s path destOpt fileNameOpt =
        CopyOutcome.reply FCErr.argumentError
          "CopyCacheObject: No unique destination name found.") := by
  refine ⟨by decide, by decide, ?_, ?_⟩
  · intro fe maxIdx b e fn
    rcases uniqueNameLoopAux_snd_shape fe b e (maxIdx - 1) 1 fn with h | ⟨N, h1, h2, h3⟩
    · left
      exact h
    · right
      exact ⟨N, h1, by omega, h3⟩
  · intro sbAllowed fsv maxIdx root s path destOpt fileNameOpt hsb hdir hfe hmax
    have hloop : ∀ (b e fn : String),
        (uniqueNameLoop fsv.fileExists maxIdx b e fn).1 = maxIdx := by
      intro b e fn
      simp only [uniqueNameLoop, uniqueNameLoopAux_fst_all _ _ _ hfe]
      omega
    simp [CategoryHandler.CopyCacheObject, hsb, hdir, hloop]

theorem claimC5_witness :
    CategoryHandler.CopyCacheObject (fun _ => true) ⟨true, true, fun _ => true⟩ 1000
        sampleRoot sampleSet samplePath (some "/tmp/dl") none =
      CopyOutcome.reply FCErr.argumentError
        "CopyCacheObject: No unique destination name found." :=
  claimC5_copy_unique_name.2.2.2 (fun _ => true) ⟨true, true, fun _ => true⟩ 1000
    sampleRoot sampleSet samplePath (some "/tmp/dl") none rfl rfl (fun _ => rfl) (by decide)

/-- Claim C6 (amended): the worker source fires every 15 seconds after
startup (its callback returns `true`, keeping it armed), and each firing
runs `CleanupOrphans` first followed by one validity check per currently
subscribed object; the cleaner source fires exactly once, 120 seconds after
startup — its callback returns `false` (a deliberate one-shot) and nothing
re-arms it, so `CleanupDirTypes` does not run periodically. -/
theorem claimC6_maintenance_schedule :
    (∀ t, CategoryHandler.workerSource.fires t = true ↔ (15 ≤ t ∧ t % 15 = 0)) ∧
    (∀ t, CategoryHandler.cleanerSource.fires t = true ↔ t = 120) ∧
    (∀ (root : List String) (subs : List Subscription),
      (CategoryHandler.WorkerHandler root subs).head? = some MaintAction.cleanupOrphans ∧
      (∀ i, (CategoryHandler.WorkerHandler root subs).get? (i + 1) =
        (subs.get? i).map fun sub =>
          MaintAction.checkSubscribed (GetTypeNameFromPath root sub.pathName)
            (GetObjectIdFromPath sub.pathName)) ∧
      (CategoryHandler.WorkerHandler root subs).length = subs.length + 1) := by
  refine ⟨?_, ?_, ?_⟩
  · intro t
    simp [CategoryHandler.workerSource, TimeoutSource.fires, CategoryHandler.TimerCallbackReturn]
  · intro t
    simp [CategoryHandler.cleanerSource, TimeoutSource.fires,
      CategoryHandler.CleanerCallbackReturn]
  · intro root subs
    refine ⟨rfl, ?_, by simp [CategoryHandler.WorkerHandler]⟩
    intro i
    simp [CategoryHandler.WorkerHandler, List.get?_eq_getElem?, List.getElem?_map]

theorem claimC6_counterexample :
    CategoryHandler.cleanerSource.fires 120 = true ∧
    240 % 120 = 0 ∧
    CategoryHandler.cleanerSource.fires 240 = false := by decide
